import Mathlib

/-!
# Verification of the archetypal transition pipeline and energy-balance engine

This file gives a shallow embedding, in Lean 4, of the core algorithms of the
`archetypal` repository:

* the EnergyPlus version ladder and transition-step computation
  (`archetypal/eplus_interface/transition.py`),
* the transition pipeline state machine (`TransitionThread.run`,
  `TransitionThread.success_callback`, `TransitionExe.get_exe_path`),
* the end-use energy-balance decomposition
  (`archetypal/idfclass/end_use_balance.py`: `get_rolling_sign_change`,
  `separate_gains_and_losses`, `to_sankey`, `_sankey_heating`,
  `_sankey_cooling`),
* the layered-construction validator and opaque-material combination
  (`archetypal/template/constructions/base_construction.py`,
  `archetypal/template/materials/opaque_material.py`).

Pandas missing values (NaN) are embedded as `Option ℚ` (`none` = NaN), and the
pandas fill/compare semantics (`bfill`, `ffill`, `shift(-1)`, NaN-propagating
comparison) are reproduced explicitly.  Theorems at the end settle the frozen
behavioural claims about these algorithms.
-/

namespace Archetypal

/-! ## EnergyPlus versions

`EnergyPlusVersion` lives in `archetypal/eplus_interface/version.py`, which is
not part of the verified sources; the spec's data model defines it as an
immutable (major, minor, patch) triple with the strict lexicographic total
order, which is what we embed here. -/

/-- Modelled from the spec: an engine version is an immutable
(major, minor, patch) triple with a strict total order, lexicographic on the
triple (`EngineVersion` in the spec's data model, `EnergyPlusVersion` in
`archetypal/eplus_interface/version.py` which is outside the verified
sources). -/
structure EnergyPlusVersion where
  major : Nat
  minor : Nat
  patch : Nat
deriving DecidableEq, Repr

namespace EnergyPlusVersion

/-- The triple seen in the lexicographic order, used to lift the linear order. -/
def toLexTriple (v : EnergyPlusVersion) : Lex (Nat × Lex (Nat × Nat)) :=
  toLex (v.major, toLex (v.minor, v.patch))

theorem toLexTriple_injective : Function.Injective toLexTriple := by
  intro a b h
  cases a; cases b
  simp only [toLexTriple, toLex, Equiv.refl_apply, Prod.mk.injEq] at h
  obtain ⟨h1, h2, h3⟩ := h
  simp_all

instance : LinearOrder EnergyPlusVersion :=
  LinearOrder.lift' toLexTriple toLexTriple_injective

/-- Dash representation, e.g. `9-0-1`, as used in transition tool filenames. -/
def dash (v : EnergyPlusVersion) : String :=
  toString v.major ++ "-" ++ toString v.minor ++ "-" ++ toString v.patch

end EnergyPlusVersion

/-! ## Version ladder: `TransitionExe.transitions`

In the source, `trans_exec` is a dict whose keys are the target versions parsed
from the `Transition-V*-to-V*` filenames found in the updater directory; the
`transitions` property filters those keys by
`self.idf.as_version >= key > self.idf.idf_version` and sorts the result.  We
embed the dict's key set as a duplicate-free list `ladder`. -/

/-- The property `TransitionExe.transitions` (transition.py lines 96-104):
every known ladder version `key` with `target ≥ key > current`, sorted
ascending.  The dict comprehension building `trans_exec` yields distinct keys,
which is why callers may assume `ladder` is duplicate-free. -/
def transitions (ladder : List EnergyPlusVersion)
    (current target : EnergyPlusVersion) : List EnergyPlusVersion :=
  List.insertionSort (· ≤ ·)
    (ladder.filter fun key => decide (target ≥ key ∧ key > current))

/-- The spec's `VersionError` ("cannot downgrade").  The transition source
never raises it: `transitions` is a total computation. -/
inductive VersionError where
  | cannotDowngrade
deriving DecidableEq, Repr

/-- The property `TransitionExe.transitions` viewed as a fallible computation.
The source body contains no `raise`: it always returns the (possibly empty)
sorted, filtered list, so the result is always `Except.ok`. -/
def transitionsE (ladder : List EnergyPlusVersion)
    (current target : EnergyPlusVersion) :
    Except VersionError (List EnergyPlusVersion) :=
  Except.ok (transitions ladder current target)

/-! ## Transition executable resolution: `TransitionExe.get_exe_path`

`get_exe_path` (transition.py lines 50-64) checks that the transition tool
mapped to the pending rung still exists on disk; when it does not it raises
`EnergyPlusProcessError` with `cmd` set to the mapped path and `stderr` set to
a fixed message embedding `idf.as_version` and the mapped path (which itself
names the rung in its `Transition-V…-to-V…` filename and lives in the staging
directory). -/

/-- Payload of `EnergyPlusProcessError` as raised by `get_exe_path` and
`success_callback` (`cmd` and `stderr` fields; the `idf` back-reference is
dropped from the embedding). -/
structure EnergyPlusProcessErrorData where
  cmd : String
  stderr : String
deriving DecidableEq, Repr

/-- Filename of a transition tool, `Transition-V<src>-to-V<tgt>` with dashed
version triples, as matched by the `to-V(([\d])-([\d])-([\d]))` regex that
keys `trans_exec` by the target version. -/
def transitionFileName (src tgt : EnergyPlusVersion) : String :=
  "Transition-V" ++ src.dash ++ "-to-V" ++ tgt.dash

/-- The stderr message of the missing-transition-program error raised by
`get_exe_path` (transition.py lines 52-63), with the two format slots filled
by `idf.as_version` and the mapped executable path. -/
def missingTransitionMsg (asVersion : EnergyPlusVersion) (execPath : String) :
    String :=
  "The specified EnergyPlus version (v" ++ asVersion.dash ++
    ") does not have the required transition program '" ++ execPath ++
    "' in the PreProcess folder. See the documentation " ++
    "(archetypal.readthedocs.io/troubleshooting.html" ++
    "#missing-transition-programs) to solve this issue"

/-- The method `TransitionExe.get_exe_path` (transition.py lines 50-64):
`execPath` is `self.trans_exec[self.trans]`, the path mapped to the pending
rung; `existsOnDisk` is `Path.exists`.  Raises `EnergyPlusProcessError` when
the mapped file is gone, otherwise returns the path. -/
def getExePath (existsOnDisk : String → Bool)
    (asVersion : EnergyPlusVersion) (execPath : String) :
    Except EnergyPlusProcessErrorData String :=
  if existsOnDisk execPath then Except.ok execPath
  else Except.error ⟨execPath, missingTransitionMsg asVersion execPath⟩

/-! ## The transition pipeline loop: `TransitionThread.run`

`run` (transition.py lines 151-211) iterates `for trans in tqdm(generator, …)`
where `generator` is a `TransitionExe`.  Each `next(generator)` re-reads the
`transitions_generator` property, which builds a fresh generator over the
`transitions` property, so each iteration invokes the FIRST element of
`transitions(ladder, idf.idf_version, idf.as_version)` computed from the
model's current state.  On exit code 0, `success_callback` adopts the
transitioned file, so `idf.idf_version` becomes the rung just applied; on a
non-zero exit, `failure_callback` records an exception on the thread and the
loop body ends — there is no `break`, `return` or `raise`, so iteration
continues with the model file (and hence `idf.idf_version`) unchanged.  The
loop ends only when `transitions` becomes empty (`StopIteration`). -/

/-- State of the model during `TransitionThread.run`: the version parsed from
the current model file, and whether `failure_callback` has recorded an
exception (`self.exception`). -/
structure RunState where
  version : EnergyPlusVersion
  failed : Bool
deriving DecidableEq, Repr

/-- One iteration body of `TransitionThread.run` after the subprocess exits:
`succeeds trans` is `p.returncode == 0` for the tool of rung `trans`.
On success, `success_callback` adopts the `.idfnew` file so the model's
version becomes `trans`; on failure, `failure_callback` records the exception
and the model file stays as it was. -/
def runStep (succeeds : EnergyPlusVersion → Bool) (st : RunState)
    (trans : EnergyPlusVersion) : RunState :=
  if succeeds trans then { st with version := trans }
  else { st with failed := true }

/-- The iteration structure of `TransitionThread.run` (transition.py lines
163-211), with explicit fuel: each iteration takes the head of `transitions`
recomputed from the current state, runs the tool, applies `runStep`, and
continues; the loop stops when `transitions` is empty.  Returns the list of
rungs actually invoked (in order) together with the final state. -/
def runLoop (ladder : List EnergyPlusVersion) (target : EnergyPlusVersion)
    (succeeds : EnergyPlusVersion → Bool) :
    Nat → RunState → List EnergyPlusVersion × RunState
  | 0, st => ([], st)
  | fuel + 1, st =>
    match transitions ladder st.version target with
    | [] => ([], st)
    | step :: _ =>
      let st' := runStep succeeds st step
      let rest := runLoop ladder target succeeds fuel st'
      (step :: rest.1, rest.2)

/-! ## Adopting the transitioned file: `TransitionThread.success_callback`

`success_callback` (transition.py lines 236-256) loops over
`Path(self.run_dir).files("*.idfnew")`.  For each such file it copies it to
the output directory (or to `output_directory / idf.name` when overwriting)
and assigns `self.idf.idfname = file`.  The `except (NameError,
UnboundLocalError)` clause sits inside the loop where `file` was assigned in
the same iteration, so the assignment cannot raise those errors and the
`EnergyPlusProcessError` branch is unreachable: with zero matching files the
loop body never runs and nothing is recorded, and with several matching files
each is adopted in turn, the last one winning. -/

/-- The observable state mutated by `success_callback`: the model's file name
and the thread's recorded exception. -/
structure IdfFileState where
  idfname : String
  exception : Option EnergyPlusProcessErrorData
deriving DecidableEq, Repr

/-- The semantics of `path.Path.copy(dir)`: the file lands in `dir` under its
own basename. -/
def copyInto (dir file : String) : String := dir ++ "/" ++ file

/-- The method `TransitionThread.success_callback` (transition.py lines
236-256).  `newFiles` is the list of `*.idfnew` basenames found in the run
directory.  The unreachable `except` branch (see the section comment) is
embedded as the unconditional success of the assignment. -/
def successCallback (overwrite : Bool)
    (outputDirectory idfName : String) (newFiles : List String)
    (st : IdfFileState) : IdfFileState :=
  newFiles.foldl
    (fun s f =>
      let file :=
        if overwrite then copyInto (copyInto outputDirectory idfName) f
        else copyInto outputDirectory f
      { s with idfname := file })
    st

/-! ## Rolling sign-change detection: `EndUseBalance.get_rolling_sign_change`

end_use_balance.py lines 345-360, applied per column; a series is embedded as
`List ℚ` and a pandas value that may be NaN as `Option ℚ` (`none` = NaN).
The pandas primitives used by the source are embedded directly:
`fillna(method="ffill")` carries the last valid value forward,
`fillna(method="bfill")` carries the next valid value backward (embedded as a
forward fill of the reversed list), `shift(-1)` drops the first entry and pads
with NaN at the end, and `!=` on possibly-NaN values is true whenever either
side is NaN (NaN compares unequal to everything, including NaN). -/

/-- Forward fill (`fillna(method="ffill")`): each NaN takes the last valid
value before it, if any; `carry` is the value carried into the list. -/
def ffill {α : Type} (carry : Option α) : List (Option α) → List (Option α)
  | [] => []
  | some x :: rest => some x :: ffill (some x) rest
  | none :: rest => carry :: ffill carry rest

/-- Backward fill (`fillna(method="bfill")`): each NaN takes the next valid
value after it, if any. -/
def bfill {α : Type} (l : List (Option α)) : List (Option α) :=
  (ffill none l.reverse).reverse

/-- Step one of `get_rolling_sign_change`:
`np.sign(data).replace({0: np.NaN})` — the sign of a value, with a sign of
zero replaced by NaN. -/
def signOpt (x : ℚ) : Option ℚ :=
  if x < 0 then some (-1) else if 0 < x then some 1 else none

/-- Pandas `!=` on possibly-NaN operands: NaN is unequal to everything,
including NaN itself. -/
def nanNe (a b : Option ℚ) : Bool :=
  match a, b with
  | some x, some y => decide (x ≠ y)
  | _, _ => true

/-- The classmethod `EndUseBalance.get_rolling_sign_change` (end_use_balance.py
lines 345-360) on one column:
`sign = np.sign(data).replace({0: np.NaN}).fillna(bfill).fillna(ffill)`,
`sign_switch = sign != sign.shift(-1)`, and the result is
`sign[sign_switch].fillna(method="bfill").fillna(method="ffill")`. -/
def rollingSign (data : List ℚ) : List (Option ℚ) :=
  let sign := ffill none (bfill (data.map signOpt))
  let signSwitch := List.zipWith nanNe sign (sign.drop 1 ++ [none])
  let kept := List.zipWith (fun s b => if b then s else none) sign signSwitch
  ffill none (bfill kept)

/-- The heating mask built in `EndUseBalance.from_idf` (line 176):
`is_heating = rolling_sign > 0`; a NaN comparison yields `False`. -/
def isHeating (data : List ℚ) : List Bool :=
  (rollingSign data).map fun o =>
    match o with
    | some x => decide (0 < x)
    | none => false

/-- The cooling mask built in `EndUseBalance.from_idf` (line 177):
`is_cooling = rolling_sign < 0`; a NaN comparison yields `False`. -/
def isCooling (data : List ℚ) : List Bool :=
  (rollingSign data).map fun o =>
    match o with
    | some x => decide (x < 0)
    | none => false

/-! ## Gain/loss separation: `EndUseBalance.separate_gains_and_losses`

end_use_balance.py lines 511-561.  After the component is summed by the
aggregation level, every (timestep, key) cell is processed pointwise: the
cooling mask (`(self.is_cooling.stack("Key_Name") == True).any(axis=1)`)
depends only on the timestep, `stacked[mask].reindex(stacked.index)` keeps the
cell where the mask holds and leaves NaN elsewhere (the "Cooling Periods"
block; `stacked[~mask]` gives the "Heating Periods" block), and
`positive_mask = inter >= 0` splits each block into "Heat Gain"
(`inter[positive_mask]`, NaN where the cell is negative or NaN — a NaN cell
compares `>= 0` as False) and "Heat Loss" (`inter[~positive_mask]`, NaN where
the cell is nonnegative, and still NaN at NaN cells).  We embed one key's
series as `vals : List ℚ` together with the per-timestep cooling mask. -/

/-- Cells kept in the "Cooling Periods" block: `stacked[mask].reindex(…)`. -/
def coolingSlice (mask : List Bool) (vals : List ℚ) : List (Option ℚ) :=
  List.zipWith (fun m v => if m then some v else none) mask vals

/-- Cells kept in the "Heating Periods" block: `stacked[~mask].reindex(…)`. -/
def heatingSlice (mask : List Bool) (vals : List ℚ) : List (Option ℚ) :=
  List.zipWith (fun m v => if m then none else some v) mask vals

/-- The "Heat Gain" half of a block: `inter[positive_mask].reindex(…)` with
`positive_mask = inter >= 0` (False at NaN cells). -/
def gainPart (o : Option ℚ) : Option ℚ :=
  o.bind fun v => if 0 ≤ v then some v else none

/-- The "Heat Loss" half of a block: `inter[~positive_mask].reindex(…)`;
NaN cells fall in `~positive_mask` but stay NaN. -/
def lossPart (o : Option ℚ) : Option ℚ :=
  o.bind fun v => if 0 ≤ v then none else some v

/-- The four columns produced by `separate_gains_and_losses` for one
aggregation key: (Period, Gain/Loss) ∈
{Cooling, Heating} × {Heat Gain, Heat Loss}. -/
structure GainLossSplit where
  coolingGain : List (Option ℚ)
  coolingLoss : List (Option ℚ)
  heatingGain : List (Option ℚ)
  heatingLoss : List (Option ℚ)
deriving DecidableEq, Repr

/-- The method `EndUseBalance.separate_gains_and_losses` (end_use_balance.py
lines 511-561) on one aggregation key. -/
def separateGainsAndLosses (mask : List Bool) (vals : List ℚ) :
    GainLossSplit :=
  let cooling := coolingSlice mask vals
  let heating := heatingSlice mask vals
  { coolingGain := cooling.map gainPart
    coolingLoss := cooling.map lossPart
    heatingGain := heating.map gainPart
    heatingLoss := heating.map lossPart }

/-- Reading one pandas cell as a number: a NaN cell contributes 0, which is
how every consumer of the split reads it (all downstream aggregation uses
pandas sums, which skip NaN). -/
def entryVal (o : Option ℚ) : ℚ := o.getD 0

/-- A pandas column total (`.sum()` with the default `skipna=True`): NaN cells
are skipped and an all-NaN or empty column totals 0, not NaN. -/
def sliceTotal (slice : List (Option ℚ)) : ℚ := (slice.map entryVal).sum

/-- The per-timestep recombination of the four split columns: cooling gain +
cooling loss + heating gain + heating loss, each NaN cell read as 0. -/
def splitRecombined (s : GainLossSplit) : List ℚ :=
  List.zipWith (· + ·)
    (List.zipWith (fun a b => entryVal a + entryVal b)
      s.coolingGain s.coolingLoss)
    (List.zipWith (fun a b => entryVal a + entryVal b)
      s.heatingGain s.heatingLoss)

/-! ## Sankey flow builder: `EndUseBalance.to_sankey`

end_use_balance.py lines 682-833.  The builder emits a flat list of
`(source, target, value)` records in three tiers:

* the whole-building tier from the tabular "End Uses" report
  (`idf.htm()["End Uses"]` filtered to the end-use rows and energy-source
  columns, zeros replaced by NaN and NaN rows/columns dropped), embedded here
  as `endUses : List (source, target, value?)` cells with `none` for NaN;
* one `Heating → Heating System` (resp. Cooling) record whose value is the
  SUM of the filtered report's column values for that end-use row;
* the gain/loss tiers from `_sankey_heating` / `_sankey_cooling`, fed with
  the annual per-(Component, Period, Gain/Loss) totals
  (`system_data.sum().sum(level=["Component", "Period", "Gain/Loss"])`,
  embedded as `groupSum` over the raw per-key entries), plus the fixed-weight
  0.01 link records.

The pure relabelling `annual_system_data.rename({...})` of component names
("people_gain" → "Occupants", …) is dropped from the embedding: `annual`
carries whatever component labels the caller uses. -/

/-- One emitted Sankey record: a directed flow edge. -/
structure SankeyRecord where
  source : String
  target : String
  value : ℚ
deriving DecidableEq, Repr

/-- The whole-building tier (`system_input`, end_use_balance.py lines 726-745):
table cells with the value 0 are replaced by NaN, NaN cells are dropped, and
each surviving cell becomes a record (column label = source = energy source,
row label = target = end use). -/
def systemInputRecords (endUses : List (String × String × Option ℚ)) :
    List SankeyRecord :=
  endUses.filterMap fun cell =>
    match cell.2.2 with
    | none => none
    | some v => if v = 0 then none else some ⟨cell.1, cell.2.1, v⟩

/-- Value of the `Heating → Heating System` (resp. Cooling) record
(end_use_balance.py lines 747-761):
`system_input.set_index("target").at[endUse, "value"].sum()` — the sum of all
filtered report cells whose target is the given end use. -/
def energyToSystemValue (records : List SankeyRecord) (endUse : String) : ℚ :=
  ((records.filter fun r => decide (r.target = endUse)).map
    SankeyRecord.value).sum

/-- The annual per-(Component, Period, Gain/Loss) totals:
`system_data.sum().sum(level=["Component", "Period", "Gain/Loss"])` sums every
raw entry sharing a key, producing one entry per distinct key (keys in order
of first appearance). -/
def groupSum (l : List ((String × String × String) × ℚ)) :
    List ((String × String × String) × ℚ) :=
  (l.map Prod.fst).dedup.map fun k =>
    (k, ((l.filter fun q => decide (q.1 = k)).map Prod.snd).sum)

/-- The per-period load table handed to `_sankey_heating` / `_sankey_cooling`:
`annual_system_data.xs(period, level="Period")` keeps the entries of the given
period, keyed by (Component, Gain/Loss). -/
def periodLoad (annual : List ((String × String × String) × ℚ))
    (period : String) : List ((String × String) × ℚ) :=
  (groupSum annual).filterMap fun q =>
    if q.1.2.1 = period then some ((q.1.1, q.1.2.2), q.2) else none

/-- Heating tier, source side (`_sankey_heating`, end_use_balance.py lines
789-814): "Heat Gain" entries with zeros replaced by NaN and NaN dropped,
absolute value taken, source label = component + " Gain" with the cell equal
to "heating Gain" replaced by "Heating System", target "Heating Load". -/
def heatingSourceRecords (load : List ((String × String) × ℚ)) :
    List SankeyRecord :=
  load.filterMap fun q =>
    if q.1.2 = "Heat Gain" ∧ q.2 ≠ 0 then
      some ⟨if q.1.1 ++ " Gain" = "heating" ++ " Gain" then "Heating System"
            else q.1.1 ++ " Gain",
            "Heating Load", |q.2|⟩
    else none

/-- Heating tier, target side (`_sankey_heating`, end_use_balance.py lines
798-818): "Heat Loss" entries, zeros and NaN dropped, absolute value taken,
source "Heating Load", target = component + " Heat Losses". -/
def heatingTargetRecords (load : List ((String × String) × ℚ)) :
    List SankeyRecord :=
  load.filterMap fun q =>
    if q.1.2 = "Heat Loss" ∧ q.2 ≠ 0 then
      some ⟨"Heating Load", q.1.1 ++ " Heat Losses", |q.2|⟩
    else none

/-- The fixed nominal weight of the end-use → component link records:
`.apply(lambda x: 0.01, axis=1)`. -/
def linkWeight : ℚ := 1 / 100

/-- Heating link tier (`_sankey_heating`, end_use_balance.py lines 819-828):
one record `Heating → s` of weight 0.01 for every source label `s` of the
source tier except "Heating System" (dropped). -/
def heatingLinkRecords (load : List ((String × String) × ℚ)) :
    List SankeyRecord :=
  (heatingSourceRecords load).filterMap fun r =>
    if r.source = "Heating System" then none
    else some ⟨"Heating", r.source, linkWeight⟩

/-- Cooling tier, source side (`_sankey_cooling`, end_use_balance.py lines
836-851): "Heat Loss" entries, zeros and NaN dropped, absolute value taken,
source label = component + " Losses" with the cell equal to "cooling Losses"
replaced by "Cooling System", target "Cooling Load". -/
def coolingSourceRecords (load : List ((String × String) × ℚ)) :
    List SankeyRecord :=
  load.filterMap fun q =>
    if q.1.2 = "Heat Loss" ∧ q.2 ≠ 0 then
      some ⟨if q.1.1 ++ " Losses" = "cooling" ++ " Losses" then
              "Cooling System"
            else q.1.1 ++ " Losses",
            "Cooling Load", |q.2|⟩
    else none

/-- Cooling tier, target side (`_sankey_cooling`, end_use_balance.py lines
853-864): "Heat Gain" entries, zeros and NaN dropped, absolute value taken,
source "Cooling Load", target = the component label itself. -/
def coolingTargetRecords (load : List ((String × String) × ℚ)) :
    List SankeyRecord :=
  load.filterMap fun q =>
    if q.1.2 = "Heat Gain" ∧ q.2 ≠ 0 then
      some ⟨"Cooling Load", q.1.1, |q.2|⟩
    else none

/-- Cooling link tier (`_sankey_cooling`, end_use_balance.py lines 865-874). -/
def coolingLinkRecords (load : List ((String × String) × ℚ)) :
    List SankeyRecord :=
  (coolingSourceRecords load).filterMap fun r =>
    if r.source = "Cooling System" then none
    else some ⟨"Cooling", r.source, linkWeight⟩

/-- The method `EndUseBalance.to_sankey` (end_use_balance.py lines 682-785):
the concatenation, in source order, of the whole-building tier, the heating
link tier, the heating energy record, the heating source and target tiers,
the cooling energy record, the cooling source and target tiers, and the
cooling link tier. -/
def toSankey (endUses : List (String × String × Option ℚ))
    (annual : List ((String × String × String) × ℚ)) : List SankeyRecord :=
  let systemInput := systemInputRecords endUses
  let heatingLoad := periodLoad annual "Heating Periods"
  let coolingLoad := periodLoad annual "Cooling Periods"
  systemInput
    ++ heatingLinkRecords heatingLoad
    ++ [⟨"Heating", "Heating System", energyToSystemValue systemInput "Heating"⟩]
    ++ heatingSourceRecords heatingLoad
    ++ heatingTargetRecords heatingLoad
    ++ [⟨"Cooling", "Cooling System", energyToSystemValue systemInput "Cooling"⟩]
    ++ coolingSourceRecords coolingLoad
    ++ coolingTargetRecords coolingLoad
    ++ coolingLinkRecords coolingLoad

/-! ## Opaque materials: `OpaqueMaterial` (opaque_material.py)

Numeric fields are embedded as `ℚ`.  `__eq__` (lines 421-426) compares
`__key__()` tuples (lines 428-447), which cover every physical field but not
`Name`, `Category`, `Comments` or `DataSource`.  `combine` (lines 113-172)
returns `self` unchanged when `self == other`, and otherwise builds a new
averaged object. -/

/-- The class `OpaqueMaterial` (opaque_material.py), with the fields read by
`__key__` plus `Name` (identity fields such as `Category`, `Comments` and
`DataSource`, which `__key__` also ignores, are represented by `Name`). -/
structure OpaqueMaterial where
  Name : String
  Conductivity : ℚ
  SpecificHeat : ℚ
  SolarAbsorptance : ℚ
  ThermalEmittance : ℚ
  VisibleAbsorptance : ℚ
  Roughness : String
  Cost : ℚ
  Density : ℚ
  MoistureDiffusionResistance : ℚ
  EmbodiedCarbon : ℚ
  EmbodiedEnergy : ℚ
  TransportCarbon : ℚ
  TransportDistance : ℚ
  TransportEnergy : ℚ
  SubstitutionRatePattern : List ℚ
  SubstitutionTimestep : ℚ
deriving DecidableEq, Repr

namespace OpaqueMaterial

end OpaqueMaterial

/-- The tuple returned by `OpaqueMaterial.__key__` (opaque_material.py lines
428-447): every attribute used for hashing and comparing, in source order. -/
structure MaterialKey where
  Conductivity : ℚ
  SpecificHeat : ℚ
  SolarAbsorptance : ℚ
  ThermalEmittance : ℚ
  VisibleAbsorptance : ℚ
  Roughness : String
  Cost : ℚ
  Density : ℚ
  MoistureDiffusionResistance : ℚ
  EmbodiedCarbon : ℚ
  EmbodiedEnergy : ℚ
  TransportCarbon : ℚ
  TransportDistance : ℚ
  TransportEnergy : ℚ
  SubstitutionRatePattern : List ℚ
  SubstitutionTimestep : ℚ
deriving DecidableEq, Repr

namespace OpaqueMaterial

/-- The method `OpaqueMaterial.__key__` (opaque_material.py lines 428-447). -/
def key (m : OpaqueMaterial) : MaterialKey :=
  { Conductivity := m.Conductivity
    SpecificHeat := m.SpecificHeat
    SolarAbsorptance := m.SolarAbsorptance
    ThermalEmittance := m.ThermalEmittance
    VisibleAbsorptance := m.VisibleAbsorptance
    Roughness := m.Roughness
    Cost := m.Cost
    Density := m.Density
    MoistureDiffusionResistance := m.MoistureDiffusionResistance
    EmbodiedCarbon := m.EmbodiedCarbon
    EmbodiedEnergy := m.EmbodiedEnergy
    TransportCarbon := m.TransportCarbon
    TransportDistance := m.TransportDistance
    TransportEnergy := m.TransportEnergy
    SubstitutionRatePattern := m.SubstitutionRatePattern
    SubstitutionTimestep := m.SubstitutionTimestep }

/-- Weighted mean of two values.  `MaterialBase.float_mean` lives in
material_base.py, outside the verified sources; this stand-in is only reached
on the `self != other` branch of `combine`, which no proved claim depends
on. -/
def floatMean (weights : ℚ × ℚ) (x y : ℚ) : ℚ :=
  (x * weights.1 + y * weights.2) / (weights.1 + weights.2)

/-- The method `OpaqueMaterial.combine` (opaque_material.py lines 113-172).
`other` always has the same class here, so the `NotImplementedError` branch
for foreign classes cannot fire.  When `self == other` (key tuples equal,
line 135) the method returns `self` itself; otherwise it builds a new object
whose numeric fields are (mostly density-weighted) means — the exact averaging
(`float_mean`, `_str_mean`, `_get_predecessors_meta`, all outside the verified
sources) is irrelevant to the claims and stood in for below. -/
def combine (a b : OpaqueMaterial) : OpaqueMaterial :=
  if a.key = b.key then a
  else
    let weights := (a.Density, b.Density)
    { Name := a.Name ++ " + " ++ b.Name
      Conductivity := floatMean weights a.Conductivity b.Conductivity
      SpecificHeat := floatMean (1, 1) a.SpecificHeat b.SpecificHeat
      SolarAbsorptance := floatMean weights a.SolarAbsorptance b.SolarAbsorptance
      ThermalEmittance := floatMean weights a.ThermalEmittance b.ThermalEmittance
      VisibleAbsorptance :=
        floatMean weights a.VisibleAbsorptance b.VisibleAbsorptance
      Roughness := a.Roughness
      Cost := floatMean weights a.Cost b.Cost
      Density := floatMean weights a.Density b.Density
      MoistureDiffusionResistance :=
        floatMean weights a.MoistureDiffusionResistance
          b.MoistureDiffusionResistance
      EmbodiedCarbon := floatMean weights a.EmbodiedCarbon b.EmbodiedCarbon
      EmbodiedEnergy := floatMean weights a.EmbodiedEnergy b.EmbodiedEnergy
      TransportCarbon := floatMean weights a.TransportCarbon b.TransportCarbon
      TransportDistance :=
        floatMean weights a.TransportDistance b.TransportDistance
      TransportEnergy := floatMean weights a.TransportEnergy b.TransportEnergy
      SubstitutionRatePattern := a.SubstitutionRatePattern
      SubstitutionTimestep :=
        floatMean weights a.SubstitutionTimestep b.SubstitutionTimestep }

end OpaqueMaterial

/-! ## Layered constructions: `LayeredConstruction` (base_construction.py)

The pydantic field declaration (lines 72-77) enforces `min_items=1` and
`max_items=10` on `Layers`, and the `valid_layer` validator (lines 79-87)
asserts that the outermost (first) and innermost (last) layers are
`MaterialLayer`s, not `GasLayer`s.  `outside_emissivity` (lines 216-219) reads
`Layers[0].Material.ThermalEmittance` and `inside_emissivity` (lines 221-224)
reads `Layers[-1].Material.ThermalEmittance`; on a `GasLayer` that attribute
access would fail, embedded as `none`. -/

/-- The class `MaterialLayer` (material_layer.py, interface only): a solid
material with a thickness. -/
structure MaterialLayer where
  Material : OpaqueMaterial
  Thickness : ℚ
deriving DecidableEq, Repr

/-- The class `GasLayer` (gas_layer.py, interface only): a gas gap with a
thickness; it has no `Material` attribute. -/
structure GasLayer where
  Gas : String
  Thickness : ℚ
deriving DecidableEq, Repr

/-- One element of `Layers : List[Union[MaterialLayer, GasLayer]]`. -/
inductive Layer where
  | material (layer : MaterialLayer)
  | gas (layer : GasLayer)
deriving DecidableEq, Repr

/-- Whether a layer is a `MaterialLayer` (an `isinstance` check). -/
def Layer.isMaterial : Layer → Bool
  | .material _ => true
  | .gas _ => false

/-- The class `LayeredConstruction` (base_construction.py lines 64-239); the
Life-Cycle fields inherited from `ConstructionBase` play no role in the
claims and are omitted. -/
structure LayeredConstruction where
  Name : String
  Layers : List Layer
deriving DecidableEq, Repr

/-- Construction of a `LayeredConstruction` through pydantic validation: the
`min_items=1` / `max_items=10` bounds of the `Layers` field (base_construction.py
lines 72-77), then the `valid_layer` validator (lines 79-87) asserting that
the outside and inside layers are not `GasLayer`s. -/
def mkLayeredConstruction (name : String) (layers : List Layer) :
    Except String LayeredConstruction :=
  if layers.length < 1 then
    Except.error "ensure this value has at least 1 items"
  else if 10 < layers.length then
    Except.error "ensure this value has at most 10 items"
  else if (layers.head?.map Layer.isMaterial).getD false = false then
    Except.error "The outside layer cannot be a GasLayer"
  else if (layers.getLast?.map Layer.isMaterial).getD false = false then
    Except.error "The inside layer cannot be a GasLayer"
  else Except.ok { Name := name, Layers := layers }

/-- The property `LayeredConstruction.outside_emissivity` (base_construction.py
lines 216-219): `self.Layers[0].Material.ThermalEmittance`; `none` when the
attribute access would fail. -/
def outsideEmissivity (c : LayeredConstruction) : Option ℚ :=
  match c.Layers.head? with
  | some (Layer.material l) => some l.Material.ThermalEmittance
  | _ => none

/-- The property `LayeredConstruction.inside_emissivity` (base_construction.py
lines 221-224): `self.Layers[-1].Material.ThermalEmittance`; `none` when the
attribute access would fail. -/
def insideEmissivity (c : LayeredConstruction) : Option ℚ :=
  match c.Layers.getLast? with
  | some (Layer.material l) => some l.Material.ThermalEmittance
  | _ => none

/-! ## Concrete sample data used by witnesses -/

/-- A concrete plaster-board material, the generic material of
`OpaqueMaterial.generic` (opaque_material.py lines 92-111) with integral
stand-ins for its non-integral fields so that kernel evaluation stays easy. -/
def sampleMaterialA : OpaqueMaterial :=
  { Name := "GP01 GYPSUM"
    Conductivity := 1
    SpecificHeat := 1090
    SolarAbsorptance := 1
    ThermalEmittance := 1
    VisibleAbsorptance := 1
    Roughness := "Smooth"
    Cost := 0
    Density := 800
    MoistureDiffusionResistance := 8
    EmbodiedCarbon := 0
    EmbodiedEnergy := 0
    TransportCarbon := 0
    TransportDistance := 0
    TransportEnergy := 0
    SubstitutionRatePattern := [1]
    SubstitutionTimestep := 20 }

/-- The same physical material under a different name: equal `__key__` tuple,
unequal `Name`. -/
def sampleMaterialB : OpaqueMaterial :=
  { sampleMaterialA with Name := "GP01 RENAMED" }

/-- A single-layer wall used as the witness construction. -/
def sampleLayers : List Layer :=
  [Layer.material { Material := sampleMaterialA, Thickness := 1 }]

/-! # Theorems settling the claims -/

/-! ## Version ladder (claims C4, C6) -/

/-- Claim C6: for every current/target version pair with target ≥ current
(and the duplicate-free ladder produced by the `trans_exec` dict), the
computed step sequence is strictly ascending and contains exactly the known
ladder versions v with current < v ≤ target; in particular, when target
equals current the sequence is empty. -/
theorem transitions_strictly_ascending_exact
    (ladder : List EnergyPlusVersion) (current target : EnergyPlusVersion)
    (hnd : ladder.Nodup) (_h : current ≤ target) :
    (transitions ladder current target).Sorted (· < ·) ∧
    (∀ v, v ∈ transitions ladder current target ↔
      v ∈ ladder ∧ current < v ∧ v ≤ target) ∧
    transitions ladder current current = [] := by
  refine ⟨?_, ?_, ?_⟩
  · have hs : (transitions ladder current target).Sorted (· ≤ ·) :=
      List.sorted_insertionSort _ _
    have hperm : List.Perm (transitions ladder current target)
        (ladder.filter fun key => decide (target ≥ key ∧ key > current)) :=
      List.perm_insertionSort _ _
    have hnd' : (transitions ladder current target).Nodup :=
      hperm.nodup_iff.mpr (hnd.filter _)
    exact hs.lt_of_le hnd'
  · intro v
    unfold transitions
    rw [(List.perm_insertionSort _ _).mem_iff, List.mem_filter]
    simp only [decide_eq_true_eq, ge_iff_le, gt_iff_lt]
    tauto
  · unfold transitions
    have hf : (ladder.filter
        fun key => decide (current ≥ key ∧ key > current)) = [] := by
      apply List.filter_eq_nil_iff.mpr
      intro a _
      simp only [decide_eq_true_eq, ge_iff_le, gt_iff_lt, not_and, not_lt]
      exact fun h1 => h1
    rw [hf]
    rfl

/-- Witness for C6 at the concrete ladder {8-9-0, 9-0-1}, current 8-0-0,
target 9-0-1. -/
theorem transitions_strictly_ascending_exact_witness :
    (transitions [⟨8, 9, 0⟩, ⟨9, 0, 1⟩] ⟨8, 0, 0⟩ ⟨9, 0, 1⟩).Sorted (· < ·) ∧
    ((⟨8, 9, 0⟩ : EnergyPlusVersion) ∈
        transitions [⟨8, 9, 0⟩, ⟨9, 0, 1⟩] ⟨8, 0, 0⟩ ⟨9, 0, 1⟩ ↔
      (⟨8, 9, 0⟩ : EnergyPlusVersion) ∈
          [(⟨8, 9, 0⟩ : EnergyPlusVersion), ⟨9, 0, 1⟩] ∧
        (⟨8, 0, 0⟩ : EnergyPlusVersion) < ⟨8, 9, 0⟩ ∧
        (⟨8, 9, 0⟩ : EnergyPlusVersion) ≤ ⟨9, 0, 1⟩) ∧
    transitions [⟨8, 9, 0⟩, ⟨9, 0, 1⟩] ⟨8, 0, 0⟩ ⟨8, 0, 0⟩ = [] := by
  have h := transitions_strictly_ascending_exact
    [⟨8, 9, 0⟩, ⟨9, 0, 1⟩] ⟨8, 0, 0⟩ ⟨9, 0, 1⟩ (by decide) (by decide)
  exact ⟨h.1, h.2.1 ⟨8, 9, 0⟩, h.2.2⟩

/-- Counterexample to claim C4 as stated: with the step computation of the
source (`TransitionExe.transitions`), a target strictly below the current
version does NOT fail with a `VersionError` — the computation returns a
result, the empty list. -/
theorem transitions_downgrade_returns_ok :
    (⟨8, 9, 0⟩ : EnergyPlusVersion) < ⟨9, 0, 1⟩ ∧
    transitionsE [⟨8, 9, 0⟩, ⟨9, 0, 1⟩] ⟨9, 0, 1⟩ ⟨8, 9, 0⟩ = Except.ok [] ∧
    transitionsE [⟨8, 9, 0⟩, ⟨9, 0, 1⟩] ⟨9, 0, 1⟩ ⟨8, 9, 0⟩ ≠
      Except.error VersionError.cannotDowngrade := by
  refine ⟨by decide, rfl, ?_⟩
  simp [transitionsE]

/-- Claim C4 (amended): for every current/target version pair with target
strictly below current, the step computation raises nothing and returns the
empty step sequence — a silent no-op rather than a `VersionError`. -/
theorem transitions_downgrade_empty
    (ladder : List EnergyPlusVersion) (current target : EnergyPlusVersion)
    (h : target < current) :
    transitionsE ladder current target = Except.ok [] := by
  unfold transitionsE transitions
  have hf : (ladder.filter
      fun key => decide (target ≥ key ∧ key > current)) = [] := by
    apply List.filter_eq_nil_iff.mpr
    intro a _
    simp only [decide_eq_true_eq, ge_iff_le, gt_iff_lt, not_and, not_lt]
    exact fun h1 => ((h1.trans_lt h).le)
  rw [hf]
  rfl

/-- Witness for the amended C4 at current 9-0-1, target 8-9-0. -/
theorem transitions_downgrade_empty_witness :
    (⟨8, 9, 0⟩ : EnergyPlusVersion) < ⟨9, 0, 1⟩ ∧
    transitionsE [⟨8, 9, 0⟩, ⟨9, 0, 1⟩] ⟨9, 0, 1⟩ ⟨8, 9, 0⟩ = Except.ok [] :=
  ⟨by decide, transitions_downgrade_empty _ _ _ (by decide)⟩

/-! ## Transition pipeline loop (claims C1, C5) -/

/-- Claim C1 is violated by the code: `TransitionThread.run` evaluated at the
failing input (ladder {8-9-0, 9-0-1}, model at 8-0-0, target 9-0-1, every
tool invocation exiting non-zero).  The rung 8-9-0 fails on its first
invocation, `failure_callback` records the exception, and yet the loop keeps
invoking transition steps — the same rung again on every later iteration
(three invocations within the first three iterations; the loop never reaches
the empty-`transitions` exit since the model's version never advances). -/
theorem runLoop_reinvokes_failed_step :
    (runLoop [⟨8, 9, 0⟩, ⟨9, 0, 1⟩] ⟨9, 0, 1⟩ (fun _ => false) 3
        { version := ⟨8, 0, 0⟩, failed := false }).1
      = [⟨8, 9, 0⟩, ⟨8, 9, 0⟩, ⟨8, 9, 0⟩] ∧
    (runLoop [⟨8, 9, 0⟩, ⟨9, 0, 1⟩] ⟨9, 0, 1⟩ (fun _ => false) 3
        { version := ⟨8, 0, 0⟩, failed := false }).2
      = { version := ⟨8, 0, 0⟩, failed := true } := by decide

/-- Claim C5 is violated by the code: `success_callback` evaluated at the
failing inputs.  With zero `*.idfnew` candidates the state is returned
unchanged and no `ProcessError` is recorded; with two candidates both are
adopted in turn (the last one wins) and again no error is recorded. -/
theorem successCallback_no_error_on_zero_or_many :
    successCallback false "outdir" "model.idf" []
        { idfname := "orig.idf", exception := none }
      = { idfname := "orig.idf", exception := none } ∧
    successCallback false "outdir" "model.idf" ["a.idfnew", "b.idfnew"]
        { idfname := "orig.idf", exception := none }
      = { idfname := "outdir/b.idfnew", exception := none } := by decide

/-! ## Rolling sign-change detection (claim C2) -/

/-- Counterexample to claim C2 as stated: on the series
[-5, -3, 0, 4, 6, -2] the Heating mask computed by the code is NOT
[F, F, F, T, T, F].  The source backward-fills the NaN left by a raw 0 before
it forward-fills, so the 0 at position 2 takes the sign of the FOLLOWING
timestep (+), not of the prior one (−). -/
theorem rollingSign_example_refutes_prior_sign :
    isHeating [-5, -3, 0, 4, 6, -2] ≠
      [false, false, false, true, true, false] ∧
    isHeating [-5, -3, 0, 4, 6, -2] =
      [false, false, true, true, true, false] := by decide

/-- Claim C2 (amended): in the rolling sign-change detection a raw value of 0
takes the sign of the immediately FOLLOWING timestep (backward fill, with a
final forward fill only for a trailing run of zeros); on the input series
[-5, -3, 0, 4, 6, -2] the Heating mask is [F, F, T, T, T, F] and the Cooling
mask is its complement. -/
theorem rollingSign_example_masks :
    isHeating [-5, -3, 0, 4, 6, -2] =
      [false, false, true, true, true, false] ∧
    isCooling [-5, -3, 0, 4, 6, -2] =
      [true, true, false, false, false, true] ∧
    isCooling [-5, -3, 0, 4, 6, -2] =
      (isHeating [-5, -3, 0, 4, 6, -2]).map (fun b => !b) := by decide

/-! ## Gain/loss separation (claim C3) -/

/-- Splitting one cell and reading the four pieces back (NaN read as 0)
returns the cell's value: the core of the exactness argument for C3. -/
theorem cell_split_exact (m : Bool) (v : ℚ) :
    entryVal (gainPart (if m then some v else none)) +
        entryVal (lossPart (if m then some v else none)) +
      (entryVal (gainPart (if m then none else some v)) +
        entryVal (lossPart (if m then none else some v))) = v := by
  cases m <;> by_cases h0 : (0 : ℚ) ≤ v <;>
    simp [gainPart, lossPart, entryVal, h0]

/-- Claim C3: the gain/loss decomposition is exact and total.  For every
component series (one aggregation key `vals` with its per-timestep cooling
mask), at every timestep the Heat Gain and Heat Loss entries produced by
`separate_gains_and_losses` recombine to the original value; and any slice
containing no data (every cell NaN) totals 0, not a missing value. -/
theorem separateGainsAndLosses_exact_and_total
    (mask : List Bool) (vals : List ℚ)
    (hlen : mask.length = vals.length) :
    splitRecombined (separateGainsAndLosses mask vals) = vals ∧
    (∀ slice : List (Option ℚ),
      (∀ o ∈ slice, o = none) → sliceTotal slice = 0) := by
  constructor
  · induction mask generalizing vals with
    | nil =>
      cases vals with
      | nil => rfl
      | cons v vs => simp at hlen
    | cons m ms ih =>
      cases vals with
      | nil => simp at hlen
      | cons v vs =>
        have hlen' : ms.length = vs.length := by simpa using hlen
        exact congrArg₂ List.cons (cell_split_exact m v) (ih vs hlen')
  · intro slice
    induction slice with
    | nil => exact fun _ => rfl
    | cons o os ih =>
      intro hslice
      have ho : o = none := hslice o (List.mem_cons_self o os)
      have h2 := ih (fun x hx => hslice x (List.mem_cons_of_mem o hx))
      subst ho
      simpa [sliceTotal, entryVal] using h2

/-! ## Missing transition tool (claim C7) -/

/-- Claim C7: when the transition tool mapped to a requested ladder step does
not exist on disk at call time, `get_exe_path` fails with the
missing-transition-program error (raised as `EnergyPlusProcessError` in the
source — the spec's `MissingToolError`), whose message names the missing rung
(inside the mapped tool filename `Transition-V…-to-V<rung>`), the required
directory, and the remediation documentation link. -/
theorem getExePath_missing_tool_error (existsOnDisk : String → Bool)
    (asVersion src tgt : EnergyPlusVersion) (dir : String)
    (h : existsOnDisk (copyInto dir (transitionFileName src tgt)) = false) :
    getExePath existsOnDisk asVersion
        (copyInto dir (transitionFileName src tgt))
      = Except.error
          { cmd := copyInto dir (transitionFileName src tgt)
            stderr := missingTransitionMsg asVersion
              (copyInto dir (transitionFileName src tgt)) } ∧
    List.IsInfix ("to-V" ++ tgt.dash).data
      (missingTransitionMsg asVersion
        (copyInto dir (transitionFileName src tgt))).data ∧
    List.IsInfix dir.data
      (missingTransitionMsg asVersion
        (copyInto dir (transitionFileName src tgt))).data ∧
    List.IsInfix
      ("archetypal.readthedocs.io/troubleshooting.html" : String).data
      (missingTransitionMsg asVersion
        (copyInto dir (transitionFileName src tgt))).data := by
  refine ⟨by simp [getExePath, h], ?_, ?_, ?_⟩
  · refine ⟨("The specified EnergyPlus version (v" ++ asVersion.dash ++
      ") does not have the required transition program '" ++ dir ++ "/" ++
      "Transition-V" ++ src.dash ++ "-").data,
      ("' in the PreProcess folder. See the documentation " ++
      "(archetypal.readthedocs.io/troubleshooting.html" ++
      "#missing-transition-programs) to solve this issue").data, ?_⟩
    have hsplit : ("-to-V" : String).data
        = ("-" : String).data ++ ("to-V" : String).data := rfl
    simp only [missingTransitionMsg, transitionFileName, copyInto,
      String.data_append, hsplit, List.append_assoc]
    rfl
  · refine ⟨("The specified EnergyPlus version (v" ++ asVersion.dash ++
      ") does not have the required transition program '").data,
      ("/" ++ transitionFileName src tgt ++
      "' in the PreProcess folder. See the documentation " ++
      "(archetypal.readthedocs.io/troubleshooting.html" ++
      "#missing-transition-programs) to solve this issue").data, ?_⟩
    simp only [missingTransitionMsg, transitionFileName, copyInto,
      String.data_append, List.append_assoc]
  · refine ⟨("The specified EnergyPlus version (v" ++ asVersion.dash ++
      ") does not have the required transition program '" ++
      copyInto dir (transitionFileName src tgt) ++
      "' in the PreProcess folder. See the documentation " ++ "(").data,
      ("#missing-transition-programs) to solve this issue").data, ?_⟩
    have hsplit : ("(archetypal.readthedocs.io/troubleshooting.html" :
        String).data = ("(" : String).data ++
        ("archetypal.readthedocs.io/troubleshooting.html" : String).data := rfl
    simp only [missingTransitionMsg, transitionFileName, copyInto,
      String.data_append, hsplit, List.append_assoc]
    rfl

/-- Witness for C7: a tool for rung 8-9-0 mapped into directory "updater"
that no longer exists on disk. -/
theorem getExePath_missing_tool_error_witness :
    getExePath (fun _ => false) ⟨9, 0, 1⟩
        (copyInto "updater" (transitionFileName ⟨8, 5, 0⟩ ⟨8, 9, 0⟩))
      = Except.error
          { cmd := copyInto "updater" (transitionFileName ⟨8, 5, 0⟩ ⟨8, 9, 0⟩)
            stderr := missingTransitionMsg ⟨9, 0, 1⟩
              (copyInto "updater"
                (transitionFileName ⟨8, 5, 0⟩ ⟨8, 9, 0⟩)) } ∧
    List.IsInfix ("to-V" ++ EnergyPlusVersion.dash ⟨8, 9, 0⟩).data
      (missingTransitionMsg ⟨9, 0, 1⟩
        (copyInto "updater" (transitionFileName ⟨8, 5, 0⟩ ⟨8, 9, 0⟩))).data ∧
    List.IsInfix ("updater" : String).data
      (missingTransitionMsg ⟨9, 0, 1⟩
        (copyInto "updater" (transitionFileName ⟨8, 5, 0⟩ ⟨8, 9, 0⟩))).data ∧
    List.IsInfix
      ("archetypal.readthedocs.io/troubleshooting.html" : String).data
      (missingTransitionMsg ⟨9, 0, 1⟩
        (copyInto "updater" (transitionFileName ⟨8, 5, 0⟩ ⟨8, 9, 0⟩))).data :=
  getExePath_missing_tool_error (fun _ => false) ⟨9, 0, 1⟩ ⟨8, 5, 0⟩ ⟨8, 9, 0⟩
    "updater" rfl

/-- Witness for C3 at mask [T, F] (cooling then heating), values [3, -2],
and the all-NaN slice [NaN, NaN]. -/
theorem separateGainsAndLosses_exact_and_total_witness :
    splitRecombined (separateGainsAndLosses [true, false] [(3 : ℚ), -2])
      = [(3 : ℚ), -2] ∧
    sliceTotal [none, none] = 0 := by
  have h := separateGainsAndLosses_exact_and_total [true, false]
    [(3 : ℚ), -2] (by decide)
  exact ⟨h.1, h.2 [none, none] (by decide)⟩

/-! ## Layered construction invariant (claim C9) -/

/-- Claim C9: every `LayeredConstruction` that passes pydantic validation has
between 1 and 10 layers, its outermost (first) and innermost (last) layers
are solid material layers (never gas layers), and consequently
`outside_emissivity` and `inside_emissivity` are both defined. -/
theorem mkLayeredConstruction_invariant (name : String) (layers : List Layer)
    (c : LayeredConstruction)
    (h : mkLayeredConstruction name layers = Except.ok c) :
    1 ≤ c.Layers.length ∧ c.Layers.length ≤ 10 ∧
    (c.Layers.head?.map Layer.isMaterial).getD false = true ∧
    (c.Layers.getLast?.map Layer.isMaterial).getD false = true ∧
    (outsideEmissivity c).isSome = true ∧
    (insideEmissivity c).isSome = true := by
  unfold mkLayeredConstruction at h
  split_ifs at h with h1 h2 h3 h4
  injection h with h
  subst h
  refine ⟨?_, ?_, ?_, ?_, ?_, ?_⟩
  · show 1 ≤ layers.length
    omega
  · show layers.length ≤ 10
    omega
  · exact Bool.not_eq_false _ |>.mp h3
  · exact Bool.not_eq_false _ |>.mp h4
  · cases hl : layers.head? with
    | none => rw [hl] at h3; simp at h3
    | some l =>
      cases l with
      | material ml => simp [outsideEmissivity, hl]
      | gas g => rw [hl] at h3; simp [Layer.isMaterial] at h3
  · cases hl : layers.getLast? with
    | none => rw [hl] at h4; simp at h4
    | some l =>
      cases l with
      | material ml => simp [insideEmissivity, hl]
      | gas g => rw [hl] at h4; simp [Layer.isMaterial] at h4

/-- Witness for C9: the single-material-layer sample construction. -/
theorem mkLayeredConstruction_invariant_witness :
    1 ≤ ({ Name := "W", Layers := sampleLayers } :
        LayeredConstruction).Layers.length ∧
    ({ Name := "W", Layers := sampleLayers } :
        LayeredConstruction).Layers.length ≤ 10 ∧
    ((({ Name := "W", Layers := sampleLayers } :
        LayeredConstruction).Layers.head?.map Layer.isMaterial).getD false
      = true) ∧
    ((({ Name := "W", Layers := sampleLayers } :
        LayeredConstruction).Layers.getLast?.map Layer.isMaterial).getD false
      = true) ∧
    (outsideEmissivity { Name := "W", Layers := sampleLayers }).isSome
      = true ∧
    (insideEmissivity { Name := "W", Layers := sampleLayers }).isSome
      = true :=
  mkLayeredConstruction_invariant "W" sampleLayers
    { Name := "W", Layers := sampleLayers } rfl

/-! ## Combining equal opaque materials (claim C10) -/

/-- Claim C10: combining an `OpaqueMaterial` with an equal material (equal
`__key__` tuples, the source's `==`) returns `self` itself unchanged — no
averaging happens — and in particular `combine` is idempotent. -/
theorem combine_identical_is_identity (a b : OpaqueMaterial)
    (h : a.key = b.key) :
    a.combine b = a ∧ a.combine a = a := by
  constructor
  · unfold OpaqueMaterial.combine
    rw [if_pos h]
  · unfold OpaqueMaterial.combine
    rw [if_pos rfl]

/-- Witness for C10: the sample gypsum material and its renamed twin (equal
key tuple, different `Name`). -/
theorem combine_identical_is_identity_witness :
    sampleMaterialA.combine sampleMaterialB = sampleMaterialA ∧
    sampleMaterialA.combine sampleMaterialA = sampleMaterialA :=
  combine_identical_is_identity sampleMaterialA sampleMaterialB rfl

/-! ## Sankey flow builder (claim C8) -/

/-- Counterexample to claim C8 as stated: the whole-building tier of
`to_sankey` passes the "End Uses" table values through unchanged (only zeros
and NaN are dropped), so a negative table cell is emitted as a record with a
negative value. -/
theorem toSankey_negative_passthrough :
    (⟨"Electricity", "Heating", -1⟩ : SankeyRecord) ∈
      toSankey [("Electricity", "Heating", some (-1))] [] ∧
    (⟨"Electricity", "Heating", -1⟩ : SankeyRecord).value < 0 := by
  constructor
  · unfold toSankey
    simp only [List.mem_append]
    left; left; left; left; left; left; left; left
    decide
  · decide

theorem systemInputRecords_nonneg
    (endUses : List (String × String × Option ℚ))
    (hpos : ∀ cell ∈ endUses, 0 ≤ cell.2.2.getD 0)
    (r : SankeyRecord) (hr : r ∈ systemInputRecords endUses) :
    0 ≤ r.value := by
  unfold systemInputRecords at hr
  rw [List.mem_filterMap] at hr
  obtain ⟨cell, hcell, hmap⟩ := hr
  obtain ⟨s, t, ov⟩ := cell
  cases ov with
  | none => exact Option.noConfusion hmap
  | some v =>
    have hmap' : (if v = 0 then none
        else some (SankeyRecord.mk s t v)) = some r := hmap
    by_cases hz : v = 0
    · rw [if_pos hz] at hmap'
      exact Option.noConfusion hmap'
    · rw [if_neg hz] at hmap'
      injection hmap' with hmap'
      rw [← hmap']
      exact hpos (s, t, some v) hcell

theorem energyToSystemValue_nonneg (records : List SankeyRecord)
    (h : ∀ r ∈ records, 0 ≤ r.value) (endUse : String) :
    0 ≤ energyToSystemValue records endUse := by
  unfold energyToSystemValue
  apply List.sum_nonneg
  intro x hx
  rw [List.mem_map] at hx
  obtain ⟨r, hrmem, hrx⟩ := hx
  rw [← hrx]
  exact h r (List.mem_filter.mp hrmem).1

theorem heatingSourceRecords_nonneg (load : List ((String × String) × ℚ))
    (r : SankeyRecord) (hr : r ∈ heatingSourceRecords load) : 0 ≤ r.value := by
  unfold heatingSourceRecords at hr
  rw [List.mem_filterMap] at hr
  obtain ⟨q, _, hmap⟩ := hr
  split_ifs at hmap
  all_goals first
    | exact Option.noConfusion hmap
    | (injection hmap with hmap; rw [← hmap]; exact abs_nonneg _)

theorem heatingTargetRecords_nonneg (load : List ((String × String) × ℚ))
    (r : SankeyRecord) (hr : r ∈ heatingTargetRecords load) : 0 ≤ r.value := by
  unfold heatingTargetRecords at hr
  rw [List.mem_filterMap] at hr
  obtain ⟨q, _, hmap⟩ := hr
  split_ifs at hmap
  all_goals first
    | exact Option.noConfusion hmap
    | (injection hmap with hmap; rw [← hmap]; exact abs_nonneg _)

theorem coolingSourceRecords_nonneg (load : List ((String × String) × ℚ))
    (r : SankeyRecord) (hr : r ∈ coolingSourceRecords load) : 0 ≤ r.value := by
  unfold coolingSourceRecords at hr
  rw [List.mem_filterMap] at hr
  obtain ⟨q, _, hmap⟩ := hr
  split_ifs at hmap
  all_goals first
    | exact Option.noConfusion hmap
    | (injection hmap with hmap; rw [← hmap]; exact abs_nonneg _)

theorem coolingTargetRecords_nonneg (load : List ((String × String) × ℚ))
    (r : SankeyRecord) (hr : r ∈ coolingTargetRecords load) : 0 ≤ r.value := by
  unfold coolingTargetRecords at hr
  rw [List.mem_filterMap] at hr
  obtain ⟨q, _, hmap⟩ := hr
  split_ifs at hmap
  all_goals first
    | exact Option.noConfusion hmap
    | (injection hmap with hmap; rw [← hmap]; exact abs_nonneg _)

theorem heatingLinkRecords_nonneg (load : List ((String × String) × ℚ))
    (r : SankeyRecord) (hr : r ∈ heatingLinkRecords load) : 0 ≤ r.value := by
  unfold heatingLinkRecords at hr
  rw [List.mem_filterMap] at hr
  obtain ⟨q, _, hmap⟩ := hr
  split_ifs at hmap
  all_goals first
    | exact Option.noConfusion hmap
    | (injection hmap with hmap; rw [← hmap];
       show (0 : ℚ) ≤ linkWeight; unfold linkWeight; norm_num)

theorem coolingLinkRecords_nonneg (load : List ((String × String) × ℚ))
    (r : SankeyRecord) (hr : r ∈ coolingLinkRecords load) : 0 ≤ r.value := by
  unfold coolingLinkRecords at hr
  rw [List.mem_filterMap] at hr
  obtain ⟨q, _, hmap⟩ := hr
  split_ifs at hmap
  all_goals first
    | exact Option.noConfusion hmap
    | (injection hmap with hmap; rw [← hmap];
       show (0 : ℚ) ≤ linkWeight; unfold linkWeight; norm_num)

theorem groupSum_keys_nodup (l : List ((String × String × String) × ℚ)) :
    ((groupSum l).map Prod.fst).Nodup := by
  unfold groupSum
  rw [List.map_map]
  have hcomp : (Prod.fst ∘ fun k : String × String × String =>
      (k, ((l.filter fun q => decide (q.1 = k)).map Prod.snd).sum)) = id := rfl
  rw [hcomp, List.map_id]
  exact List.nodup_dedup _

theorem periodLoad_keys_nodup
    (annual : List ((String × String × String) × ℚ)) (period : String) :
    ((periodLoad annual period).map Prod.fst).Nodup := by
  unfold periodLoad
  have h := groupSum_keys_nodup annual
  generalize groupSum annual = l at h ⊢
  induction l with
  | nil => simp
  | cons a t ih =>
    rw [List.map_cons, List.nodup_cons] at h
    obtain ⟨hnotmem, hnd⟩ := h
    by_cases hp : a.1.2.1 = period
    · rw [List.filterMap_cons, if_pos hp]
      rw [List.map_cons, List.nodup_cons]
      refine ⟨?_, ih hnd⟩
      intro hmem
      rw [List.mem_map] at hmem
      obtain ⟨q', hq', hfst⟩ := hmem
      rw [List.mem_filterMap] at hq'
      obtain ⟨b, hb, hgb⟩ := hq'
      by_cases hpb : b.1.2.1 = period
      · rw [if_pos hpb] at hgb
        injection hgb with hgb
        have hpair : (b.1.1, b.1.2.2) = (a.1.1, a.1.2.2) := by
          rw [← hgb] at hfst
          exact hfst
        rw [Prod.mk.injEq] at hpair
        apply hnotmem
        rw [List.mem_map]
        refine ⟨b, hb, ?_⟩
        refine Prod.ext_iff.mpr ⟨hpair.1, Prod.ext_iff.mpr ⟨?_, hpair.2⟩⟩
        rw [hpb, hp]
      · rw [if_neg hpb] at hgb
        exact Option.noConfusion hgb
    · rw [List.filterMap_cons, if_neg hp]
      exact ih hnd

theorem string_append_right_cancel (a b s : String) (h : a ++ s = b ++ s) :
    a = b := by
  have hd : a.data ++ s.data = b.data ++ s.data := by
    have hdata := congrArg String.data h
    simpa [String.data_append] using hdata
  exact congrArg String.mk (List.append_cancel_right hd)

theorem gain_label_ne_system (c : String) :
    c ++ " Gain" ≠ "Heating System" := by
  intro h
  have hd := congrArg String.data h
  rw [String.data_append] at hd
  have hsuf : (" Gain" : String).data <:+ ("Heating System" : String).data :=
    ⟨c.data, hd⟩
  exact absurd hsuf (by decide)

theorem heatingLabel_inj (c c' : String)
    (h : (if c ++ " Gain" = "heating" ++ " Gain" then "Heating System"
          else c ++ " Gain")
       = (if c' ++ " Gain" = "heating" ++ " Gain" then "Heating System"
          else c' ++ " Gain")) : c = c' := by
  by_cases h1 : c ++ " Gain" = "heating" ++ " Gain"
  · by_cases h2 : c' ++ " Gain" = "heating" ++ " Gain"
    · exact (string_append_right_cancel c "heating" _ h1).trans
        (string_append_right_cancel c' "heating" _ h2).symm
    · rw [if_pos h1, if_neg h2] at h
      exact absurd h.symm (gain_label_ne_system c')
  · by_cases h2 : c' ++ " Gain" = "heating" ++ " Gain"
    · rw [if_neg h1, if_pos h2] at h
      exact absurd h (gain_label_ne_system c)
    · rw [if_neg h1, if_neg h2] at h
      exact string_append_right_cancel c c' _ h

theorem heatingSourceRecords_pairs_nodup
    (load : List ((String × String) × ℚ))
    (h : (load.map Prod.fst).Nodup) :
    ((heatingSourceRecords load).map fun s => (s.source, s.target)).Nodup := by
  induction load with
  | nil => simp [heatingSourceRecords]
  | cons a t ih =>
    rw [List.map_cons, List.nodup_cons] at h
    obtain ⟨hnotmem, hnd⟩ := h
    unfold heatingSourceRecords
    rw [List.filterMap_cons]
    by_cases hc : a.1.2 = "Heat Gain" ∧ a.2 ≠ 0
    · rw [if_pos hc]
      rw [List.map_cons, List.nodup_cons]
      refine ⟨?_, ih hnd⟩
      intro hmem
      rw [List.mem_map] at hmem
      obtain ⟨r', hr', hpr⟩ := hmem
      rw [List.mem_filterMap] at hr'
      obtain ⟨b, hb, hgb⟩ := hr'
      by_cases hcb : b.1.2 = "Heat Gain" ∧ b.2 ≠ 0
      · rw [if_pos hcb] at hgb
        injection hgb with hgb
        have hlabel : (if b.1.1 ++ " Gain" = "heating" ++ " Gain" then
              "Heating System" else b.1.1 ++ " Gain")
            = (if a.1.1 ++ " Gain" = "heating" ++ " Gain" then
              "Heating System" else a.1.1 ++ " Gain") := by
          rw [← hgb] at hpr
          exact congrArg Prod.fst hpr
        have hcc : b.1.1 = a.1.1 := heatingLabel_inj _ _ hlabel
        apply hnotmem
        rw [List.mem_map]
        refine ⟨b, hb, ?_⟩
        refine Prod.ext_iff.mpr ⟨hcc, ?_⟩
        rw [hcb.1, hc.1]
      · rw [if_neg hcb] at hgb
        exact Option.noConfusion hgb
    · rw [if_neg hc]
      exact ih hnd

theorem heatingSourceRecords_value_merged
    (annual : List ((String × String × String) × ℚ)) (r : SankeyRecord)
    (hr : r ∈ heatingSourceRecords (periodLoad annual "Heating Periods")) :
    ∃ comp, r.value =
      |(((annual.filter fun q =>
          decide (q.1 = (comp, "Heating Periods", "Heat Gain"))).map
        Prod.snd).sum)| := by
  unfold heatingSourceRecords at hr
  rw [List.mem_filterMap] at hr
  obtain ⟨q, hq, hmap⟩ := hr
  by_cases hc : q.1.2 = "Heat Gain" ∧ q.2 ≠ 0
  · rw [if_pos hc] at hmap
    injection hmap with hmap
    unfold periodLoad at hq
    rw [List.mem_filterMap] at hq
    obtain ⟨p, hp, hgp⟩ := hq
    by_cases hpp : p.1.2.1 = "Heating Periods"
    · rw [if_pos hpp] at hgp
      injection hgp with hgp
      unfold groupSum at hp
      rw [List.mem_map] at hp
      obtain ⟨k, hk, hpk⟩ := hp
      obtain ⟨c0, p0, g0⟩ := k
      have hp1 : p.1 = (c0, p0, g0) := by rw [← hpk]
      have hv : p.2 = ((annual.filter fun q' =>
          decide (q'.1 = (c0, p0, g0))).map Prod.snd).sum := by rw [← hpk]
      have hq2 : q.2 = p.2 := by rw [← hgp]
      have hg0 : g0 = "Heat Gain" := by
        have hcc := hc.1
        rw [← hgp] at hcc
        rw [hp1] at hcc
        exact hcc
      have hp0 : p0 = "Heating Periods" := by
        rw [hp1] at hpp
        exact hpp
      refine ⟨c0, ?_⟩
      rw [← hmap]
      show |q.2| = _
      rw [hq2, hv, hg0, hp0]
    · rw [if_neg hpp] at hgp
      exact Option.noConfusion hgp
  · rw [if_neg hc] at hmap
    exact Option.noConfusion hmap

/-- Claim C8 (amended): every record the Sankey builder emits from the
gain/loss tiers and the link tier has a nonnegative (and non-missing) value,
and the whole-building tier reproduces the filtered "End Uses" table values,
so when those are nonnegative — as every physical End Uses report is — every
emitted record has a nonnegative, non-NaN value; duplicate keys are merged by
summing (the heating source tier carries one record per (source, target)
pair, whose value is the absolute value of the SUM of all raw annual entries
sharing that component key, and the energy-to-system records sum every
matching table cell). -/
theorem toSankey_nonneg_and_merged
    (endUses : List (String × String × Option ℚ))
    (annual : List ((String × String × String) × ℚ))
    (r : SankeyRecord)
    (hpos : ∀ cell ∈ endUses, 0 ≤ cell.2.2.getD 0)
    (hr : r ∈ toSankey endUses annual) :
    0 ≤ r.value ∧
    ((heatingSourceRecords (periodLoad annual "Heating Periods")).map
      (fun s => (s.source, s.target))).Nodup ∧
    (r ∈ heatingSourceRecords (periodLoad annual "Heating Periods") →
      ∃ comp, r.value =
        |(((annual.filter fun q =>
            decide (q.1 = (comp, "Heating Periods", "Heat Gain"))).map
          Prod.snd).sum)|) := by
  refine ⟨?_,
    heatingSourceRecords_pairs_nodup _ (periodLoad_keys_nodup annual _),
    fun h => heatingSourceRecords_value_merged annual r h⟩
  have hsys : ∀ r' ∈ systemInputRecords endUses, 0 ≤ r'.value :=
    fun r' hr' => systemInputRecords_nonneg endUses hpos r' hr'
  simp only [toSankey, List.mem_append, List.mem_singleton] at hr
  rcases hr with ((((((((h | h) | h) | h) | h) | h) | h) | h) | h)
  · exact hsys r h
  · exact heatingLinkRecords_nonneg _ r h
  · rw [h]
    exact energyToSystemValue_nonneg _ hsys "Heating"
  · exact heatingSourceRecords_nonneg _ r h
  · exact heatingTargetRecords_nonneg _ r h
  · rw [h]
    exact energyToSystemValue_nonneg _ hsys "Cooling"
  · exact coolingSourceRecords_nonneg _ r h
  · exact coolingTargetRecords_nonneg _ r h
  · exact coolingLinkRecords_nonneg _ r h

/-- Witness for the amended C8 at an empty "End Uses" table and empty annual
data: the emitted `Heating → Heating System` record. -/
theorem toSankey_nonneg_and_merged_witness :
    (0 : ℚ) ≤ (SankeyRecord.mk "Heating" "Heating System" 0).value ∧
    ((heatingSourceRecords (periodLoad [] "Heating Periods")).map
      (fun s => (s.source, s.target))).Nodup ∧
    ((SankeyRecord.mk "Heating" "Heating System" 0) ∈
        heatingSourceRecords (periodLoad [] "Heating Periods") →
      ∃ comp, (SankeyRecord.mk "Heating" "Heating System" 0).value =
        |((([] : List ((String × String × String) × ℚ)).filter fun q =>
            decide (q.1 = (comp, "Heating Periods", "Heat Gain"))).map
          Prod.snd).sum|) :=
  toSankey_nonneg_and_merged [] [] ⟨"Heating", "Heating System", 0⟩
    (by simp) (by decide)

end Archetypal
